import Mathlib

/-!
Verification of the concurrent consensus-validation engine of the `qa-ai`
repository against its specification.

The Python sources are shallowly embedded: each Pydantic model becomes a Lean
structure, each pure method becomes a Lean function, and the two remote-call
sites (the Gemini API and the two agents built on it) are modelled by oracle
arguments so that the deterministic control flow around them can be verified
for every possible sequence of remote replies.
-/

namespace QaAi

/-- `AnswerOption` from `src/models/schemas.py`: one answer option. -/
structure AnswerOption where
  content : String
  isRight : Bool
  deriving Repr, DecidableEq

/-- `QuestionItem` from `src/models/schemas.py`: a multiple-choice question.
`column` is `Optional[str]`, hence `Option String` here. -/
structure QuestionItem where
  content : String
  title : String
  type : String
  column : Option String
  answers : List AnswerOption
  questionNumber : String
  deriving Repr, DecidableEq

/-- `AnswerResult` from `src/models/schemas.py`: the per-question outcome the
dispatcher returns.  `selectedAnswer` and `error` are `Optional[str]`. -/
structure AnswerResult where
  questionNumber : String
  selectedAnswer : Option String
  error : Option String
  validationIterations : Nat
  processingTimeMs : Nat
  deriving Repr, DecidableEq

/-- `AnswererResponse` from `src/agents/answerer_agent.py`. -/
structure AnswererResponse where
  selected_answer : String
  reasoning : String
  deriving Repr, DecidableEq

/-- `ValidatorResponse` from `src/agents/validator_agent.py`.  The constructor
only ever receives `"AGREE"` or `"DISAGREE"` as verdict; `criticism` is
`Optional[str]`. -/
structure ValidatorResponse where
  verdict : String
  criticism : Option String
  deriving Repr, DecidableEq

/-- `ValidatorResponse.agrees` from `src/agents/validator_agent.py`. -/
def ValidatorResponse.agrees (r : ValidatorResponse) : Bool :=
  r.verdict == "AGREE"

/-- `ValidationResult` from `src/agents/multi_agent_validator.py`. -/
structure ValidationResult where
  selected_answer : String
  iterations : Nat
  consensus_reached : Bool
  deriving Repr, DecidableEq

/-- Python truthiness test `not x` for an `Optional[str]` variable: `None` and
the empty string are falsy. -/
def isFalsy : Option String → Bool
  | none => true
  | some s => s == ""

/-! ### Python string primitives

The agents use `str.strip()`, `str.split('\n')`, `str.startswith`, slicing
and `str.upper()`.  These are embedded at the character level (over the
ASCII alphabet the prompts and labels use), so that every parse is a chain of
structural recursions a proof can evaluate. -/

/-- The characters `str.strip()` removes (ASCII whitespace). -/
def pyIsSpace (c : Char) : Bool :=
  c == ' ' || c == '\t' || c == '\n' || c == '\x0d' || c == '\x0b' || c == '\x0c'

/-- Remove leading whitespace characters. -/
def pyStripLeft : List Char → List Char
  | [] => []
  | c :: cs => if pyIsSpace c then pyStripLeft cs else c :: cs

/-- `str.strip()` on the character list: strip both ends. -/
def pyStripChars (l : List Char) : List Char :=
  (pyStripLeft ((pyStripLeft l).reverse)).reverse

/-- `str.split('\n')` on the character list: split at every newline, keeping
empty pieces (`"".split('\n') == [""]`). -/
def splitLinesChars : List Char → List (List Char)
  | [] => [[]]
  | c :: cs =>
      if c == '\n' then [] :: splitLinesChars cs
      else
        match splitLinesChars cs with
        | [] => [[c]]
        | l :: ls => (c :: l) :: ls

/-- `s.startswith(p)` on character lists (`s` first, then `p`). -/
def pyStartsWithChars : List Char → List Char → Bool
  | _, [] => true
  | [], _ :: _ => false
  | c :: cs, p :: ps => c == p && pyStartsWithChars cs ps

/-- `str.upper()` on one ASCII character. -/
def pyUpperChar (c : Char) : Char :=
  if 97 ≤ c.toNat ∧ c.toNat ≤ 122 then Char.ofNat (c.toNat - 32) else c

/-- `str.strip()`. -/
def pyStrip (s : String) : String := ⟨pyStripChars s.data⟩

/-- `str.split('\n')`. -/
def pySplitLines (s : String) : List String := (splitLinesChars s.data).map String.mk

/-- `s.startswith(p)`. -/
def pyStartsWith (s p : String) : Bool := pyStartsWithChars s.data p.data

/-- `s[n:]` (character slicing; identical to byte slicing on the ASCII
material the parsers handle). -/
def pyDrop (s : String) (n : Nat) : String := ⟨s.data.drop n⟩

/-- `str.upper()`. -/
def pyUpper (s : String) : String := ⟨s.data.map pyUpperChar⟩

/-! ### Response parsing (`_parse_response` of both agents)

Both parsers strip the whole response, split it on `'\n'`, and scan the lines
in order, overwriting the accumulator on every line that starts with a
recognised label.  Each Python `for` loop is embedded as a `List.foldl` over
the lines with the loop body as the step function. -/

/-- Loop body of `AnswererAgent._parse_response` (`src/agents/answerer_agent.py`,
lines 117-122): the accumulator is the pair `(selected_answer, reasoning)`. -/
def answererScanStep (acc : Option String × Option String) (l : String) :
    Option String × Option String :=
  let line := pyStrip l
  if pyStartsWith line "SELECTED:" then
    (some (pyStrip (pyDrop line ("SELECTED:".length))), acc.2)
  else if pyStartsWith line "REASONING:" then
    (acc.1, some (pyStrip (pyDrop line ("REASONING:".length))))
  else
    acc

/-- `AnswererAgent._parse_response` from `src/agents/answerer_agent.py`:
scan the stripped, newline-split response for the `SELECTED:` and `REASONING:`
labels, then fail on a falsy (`None` or empty) value of either. -/
def answererParseResponse (response_text : String) :
    Except String AnswererResponse :=
  let lines := pySplitLines (pyStrip response_text)
  let acc := lines.foldl answererScanStep (none, none)
  if isFalsy acc.1 then
    Except.error "Could not extract SELECTED from response"
  else if isFalsy acc.2 then
    Except.error "Could not extract REASONING from response"
  else
    Except.ok ⟨acc.1.getD "", acc.2.getD ""⟩

/-- Loop body of `ValidatorAgent._parse_response` (`src/agents/validator_agent.py`,
lines 125-131): a `VERDICT:` line only updates the verdict when its value,
stripped and upper-cased, is exactly `AGREE` or `DISAGREE`. -/
def validatorScanStep (acc : Option String × Option String) (l : String) :
    Option String × Option String :=
  let line := pyStrip l
  if pyStartsWith line "VERDICT:" then
    let verdict_text := pyUpper (pyStrip (pyDrop line ("VERDICT:".length)))
    if verdict_text = "AGREE" ∨ verdict_text = "DISAGREE" then
      (some verdict_text, acc.2)
    else
      acc
  else if pyStartsWith line "CRITICISM:" then
    (acc.1, some (pyStrip (pyDrop line ("CRITICISM:".length))))
  else
    acc

/-- `ValidatorAgent._parse_response` from `src/agents/validator_agent.py`:
fails only when no valid verdict was found; a `DISAGREE` without criticism is
merely logged and still returned. -/
def validatorParseResponse (response_text : String) :
    Except String ValidatorResponse :=
  let lines := pySplitLines (pyStrip response_text)
  let acc := lines.foldl validatorScanStep (none, none)
  if isFalsy acc.1 then
    Except.error "Could not extract VERDICT from response"
  else
    Except.ok ⟨acc.1.getD "", acc.2⟩

/-! Specification-side characterisations of the scans, used to state claims
about which occurrence of a repeated label determines the parsed value. -/

/-- The value retained for a plain label after scanning `lines`: the value of
the last line whose stripped form starts with `label`. -/
def lastLabelValue (label : String) (lines : List String) : Option String :=
  lines.foldl
    (fun acc l =>
      let line := pyStrip l
      if pyStartsWith line label then some (pyStrip (pyDrop line label.length)) else acc)
    none

/-- The verdict retained after scanning `lines`: the normalised value of the
last `VERDICT:` line whose value normalises to `AGREE` or `DISAGREE`. -/
def lastVerdictValue (lines : List String) : Option String :=
  lines.foldl
    (fun acc l =>
      let line := pyStrip l
      if pyStartsWith line "VERDICT:" then
        let v := pyUpper (pyStrip (pyDrop line ("VERDICT:".length)))
        if v = "AGREE" ∨ v = "DISAGREE" then some v else acc
      else acc)
    none

/-! ### Resilient call client (`src/agents/gemini_client.py`)

`GeminiClient.generate_response` is a retry loop around one remote call per
attempt.  The remote call is modelled by an oracle mapping the (1-based)
attempt number to what `self.model.generate_content` did on that attempt:
either raise, or return a response whose `.text` is absent (`None`, covering
a falsy response object as well) or some string. -/

/-- Retry-relevant configuration of `GeminiClient.__init__`
(`src/agents/gemini_client.py`). -/
structure GeminiConfig where
  max_retries : Nat
  base_retry_delay_ms : Nat
  retry_multiplier : Nat
  deriving Repr, DecidableEq

/-- Outcome of one underlying `generate_content` call: an exception carrying
`str(e)`, or a response whose text is `none` (absent) or a string. -/
inductive ApiOutcome where
  | exn (msg : String)
  | resp (text : Option String)
  deriving Repr, DecidableEq

/-- The `try` body of one attempt in `GeminiClient.generate_response`
(`src/agents/gemini_client.py`, lines 69-79): a response with an absent or
empty text raises `ValueError("Empty response from Gemini API")`, which the
`except` arm turns into a failure exactly like a transport error. -/
def attemptResult : ApiOutcome → Except String String
  | .exn m => Except.error m
  | .resp none => Except.error "Empty response from Gemini API"
  | .resp (some t) =>
      if t = "" then Except.error "Empty response from Gemini API" else Except.ok t

/-- The message of the exception raised after the retry budget is exhausted
(`src/agents/gemini_client.py`, lines 96-98). -/
def geminiFailureMessage (max_retries : Nat) (lastError : String) : String :=
  "Gemini API call failed after " ++ toString max_retries ++ " attempts: " ++ lastError

/-- The `for attempt in range(1, max_retries + 1)` loop of
`GeminiClient.generate_response`, returning the result, the number of
attempts made from `attempt` on, and the list of backoff delays (in
milliseconds) slept from `attempt` on.  `lastErr` holds `str(last_exception)`
(initially `str(None) = "None"`). -/
def generateGo (cfg : GeminiConfig) (oracle : Nat → ApiOutcome)
    (attempt : Nat) (lastErr : String) : Except String String × Nat × List Nat :=
  if attempt ≤ cfg.max_retries then
    match attemptResult (oracle attempt) with
    | Except.ok t => (Except.ok t, 1, [])
    | Except.error m =>
        if attempt < cfg.max_retries then
          let delay_ms := cfg.base_retry_delay_ms * cfg.retry_multiplier ^ (attempt - 1)
          let rest := generateGo cfg oracle (attempt + 1) m
          (rest.1, rest.2.1 + 1, delay_ms :: rest.2.2)
        else
          (Except.error (geminiFailureMessage cfg.max_retries m), 1, [])
  else
    (Except.error (geminiFailureMessage cfg.max_retries lastErr), 0, [])
termination_by cfg.max_retries + 1 - attempt

/-- `GeminiClient.generate_response` from `src/agents/gemini_client.py`:
result, total number of attempts made, and list of delays slept. -/
def generateResponse (cfg : GeminiConfig) (oracle : Nat → ApiOutcome) :
    Except String String × Nat × List Nat :=
  generateGo cfg oracle 1 "None"

/-! ### Consensus loop (`src/agents/multi_agent_validator.py`)

`MultiAgentValidator.validate_question` alternates the answerer and the
validator.  Each agent call (prompt construction, remote call, parse) may
return any response; the two agents are modelled by oracles receiving the
1-based iteration number together with the arguments the source passes:
the answerer gets the threaded `previous_answer`/`criticism` pair, the
validator gets the current selection and reasoning. -/

/-- Replies of the answerer agent, per iteration and threaded state. -/
def AnswererOracle : Type :=
  Nat → Option String → Option String → AnswererResponse

/-- Replies of the validator agent, per iteration, selection and reasoning. -/
def ValidatorOracle : Type :=
  Nat → String → String → ValidatorResponse

/-- The `while iteration < self.max_iterations` loop of
`MultiAgentValidator.validate_question` (`src/agents/multi_agent_validator.py`,
lines 82-139).  `lastAnswer` models the Python variable `current_answer` as
seen after the loop: `none` while it is still unbound (so leaving the loop
without one iteration — only possible when `max_iterations = 0` — yields
`none`, the embedding of Python's `UnboundLocalError`).  The second component
counts the proposer/critic round-trips performed. -/
def validateGo (a : AnswererOracle) (v : ValidatorOracle) (maxIterations : Nat)
    (iteration : Nat) (previous_answer criticism lastAnswer : Option String) :
    Option ValidationResult × Nat :=
  if h : iteration < maxIterations then
    let it := iteration + 1
    let ar := a it previous_answer criticism
    let vr := v it ar.selected_answer ar.reasoning
    if vr.agrees then
      (some ⟨ar.selected_answer, it, true⟩, 1)
    else
      let rest := validateGo a v maxIterations it
        (some ar.selected_answer) vr.criticism (some ar.selected_answer)
      (rest.1, rest.2 + 1)
  else
    (lastAnswer.map fun ans => ⟨ans, iteration, false⟩, 0)
termination_by maxIterations - iteration

/-- `MultiAgentValidator.validate_question`: the loop started from
`iteration = 0` with no prior selection or criticism. -/
def validateQuestion (maxIterations : Nat) (a : AnswererOracle)
    (v : ValidatorOracle) : Option ValidationResult × Nat :=
  validateGo a v maxIterations 0 none none none

/-- The `(previous_answer, criticism)` pair the loop holds before iteration
`k + 1`, reconstructed from the oracles. -/
def stateBefore (a : AnswererOracle) (v : ValidatorOracle) :
    Nat → Option String × Option String
  | 0 => (none, none)
  | k + 1 =>
      let s := stateBefore a v k
      let ar := a (k + 1) s.1 s.2
      let vr := v (k + 1) ar.selected_answer ar.reasoning
      (some ar.selected_answer, vr.criticism)

/-- The answerer response produced on iteration `k` (for `k ≥ 1`). -/
def answerAt (a : AnswererOracle) (v : ValidatorOracle) (k : Nat) :
    AnswererResponse :=
  a k (stateBefore a v (k - 1)).1 (stateBefore a v (k - 1)).2

/-- The validator response produced on iteration `k` (for `k ≥ 1`). -/
def verdictAt (a : AnswererOracle) (v : ValidatorOracle) (k : Nat) :
    ValidatorResponse :=
  v k (answerAt a v k).selected_answer (answerAt a v k).reasoning

/-! ### Dispatcher (`src/workers/question_processor.py`)

`_process_single_question` wraps `validate_question` in a `try`/`except`
converting any exception into an error-shaped `AnswerResult`; the outcome of
`validate_question` for a question (a result or a raised exception message)
and the measured wall-clock milliseconds are inputs of the embedding.
`process_questions` gathers one task per question with
`return_exceptions=True` and converts any exception that still escaped a task
into an error-shaped result using `questions[i].questionNumber`. -/

/-- `QuestionProcessor._process_single_question`
(`src/workers/question_processor.py`, lines 71-134). -/
def processSingleQuestion (q : QuestionItem)
    (outcome : Except String ValidationResult) (elapsedMs : Nat) : AnswerResult :=
  match outcome with
  | Except.ok vr =>
      { questionNumber := q.questionNumber
        selectedAnswer := some vr.selected_answer
        error := none
        validationIterations := vr.iterations
        processingTimeMs := elapsedMs }
  | Except.error e =>
      { questionNumber := q.questionNumber
        selectedAnswer := none
        error := some e
        validationIterations := 0
        processingTimeMs := elapsedMs }

/-- The exception-conversion arm of `process_questions`
(`src/workers/question_processor.py`, lines 49-66): a task value that is an
exception becomes an error result named after the input question. -/
def gatherConvert (q : QuestionItem) : Except String AnswerResult → AnswerResult
  | Except.error e =>
      { questionNumber := q.questionNumber
        selectedAnswer := none
        error := some e
        validationIterations := 0
        processingTimeMs := 0 }
  | Except.ok r => r

/-- `QuestionProcessor.process_questions`
(`src/workers/question_processor.py`, lines 30-69): `task` is the gathered
outcome of each `_process_single_question` task (`Except.error` when the task
itself escaped with an exception, which `asyncio.gather` hands back because
of `return_exceptions=True`); the final loop converts those indexwise. -/
def processQuestions (questions : List QuestionItem)
    (task : QuestionItem → Except String AnswerResult) : List AnswerResult :=
  (questions.zip (questions.map task)).map fun qr => gatherConvert qr.1 qr.2

/-- The normal per-question task: `_process_single_question` completes and
returns its `AnswerResult` (its own `try`/`except` swallows the validation
failure), so the gathered value is never an exception. -/
def singleTask (outcome : QuestionItem → Except String ValidationResult)
    (elapsed : QuestionItem → Nat) : QuestionItem → Except String AnswerResult :=
  fun q => Except.ok (processSingleQuestion q (outcome q) (elapsed q))

/-! ### Proposer prompt construction (`src/agents/answerer_agent.py`)

`AnswererAgent._build_prompt` begins by iterating over `question.answer`.
`QuestionItem` (a Pydantic model, `src/models/schemas.py`) defines no
attribute named `answer` — its field is `answers` — so this attribute access
raises `AttributeError` in Python.  To embed that faithfully, attribute
access on a `QuestionItem` is modelled explicitly as a fallible lookup over
the model's declared fields. -/

/-- A value read off a `QuestionItem` attribute. -/
inductive PyAttr where
  | strA (s : String)
  | optStrA (s : Option String)
  | optionsA (l : List AnswerOption)
  deriving Repr, DecidableEq

/-- Python attribute lookup on a `QuestionItem`: exactly the six fields
declared in `src/models/schemas.py` exist; any other name raises
`AttributeError` (message rendered without the quote characters). -/
def questionItemAttr (q : QuestionItem) (name : String) : Except String PyAttr :=
  if name = "content" then Except.ok (PyAttr.strA q.content)
  else if name = "title" then Except.ok (PyAttr.strA q.title)
  else if name = "type" then Except.ok (PyAttr.strA q.type)
  else if name = "column" then Except.ok (PyAttr.optStrA q.column)
  else if name = "answers" then Except.ok (PyAttr.optionsA q.answers)
  else if name = "questionNumber" then Except.ok (PyAttr.strA q.questionNumber)
  else Except.error ("AttributeError: QuestionItem object has no attribute " ++ name)

/-- The `letters` list of `AnswererAgent._build_prompt` — eight entries. -/
def promptLetters : List String :=
  ["A", "B", "C", "D", "E", "F", "G", "H"]

/-- How the f-string `f"{letters[i]}. {answer}"` renders an `AnswerOption`
object (Pydantic model `str()`, quote characters omitted). -/
def pyStrAnswerOption (o : AnswerOption) : String :=
  "content=" ++ o.content ++ " isRight=" ++ (if o.isRight then "True" else "False")

/-- The list comprehension building `answer_list`: `letters[i]` raises
`IndexError` as soon as there are more options than letters. -/
def renderAnswerList (options : List AnswerOption) : Except String String :=
  if options.length ≤ promptLetters.length then
    Except.ok (String.intercalate "\n"
      (options.enum.map fun p => (promptLetters.getD p.1 "") ++ ". " ++ pyStrAnswerOption p.2))
  else
    Except.error "IndexError: list index out of range"

/-- `AnswererAgent._build_prompt` from `src/agents/answerer_agent.py`,
lines 40-89.  The first step evaluates `question.answer`; the rest of the
construction follows the source's f-strings.  The reconsider block is added
exactly when `previous_answer and criticism` is truthy in Python. -/
def answererBuildPrompt (q : QuestionItem)
    (previous_answer criticism : Option String) : Except String String := do
  let attr ← questionItemAttr q "answer"
  let options ← match attr with
    | PyAttr.optionsA l => Except.ok l
    | _ => Except.error "TypeError: object is not iterable"
  let answer_list ← renderAnswerList options
  let base :=
    "You are an expert at analyzing multiple-choice questions and selecting the best answer.\n\nQuestion Content:\n"
      ++ q.content ++ "\n\nQuestion Title:\n" ++ q.title
      ++ "\n\nAvailable Answers:\n" ++ answer_list ++ "\n"
  let withReconsider :=
    if !isFalsy previous_answer && !isFalsy criticism then
      base ++ "\nPrevious Selection: " ++ previous_answer.getD ""
        ++ "\nValidator Criticism: " ++ criticism.getD ""
        ++ "\nPlease reconsider your answer based on this feedback.\n"
    else base
  Except.ok (withReconsider
    ++ "\nTask: Select the single best answer from the options above. Provide your selection and brief reasoning.\n\nFormat your response as:\nSELECTED: [letter only - A, B, C, or D]\nREASONING: [your explanation]\n")

/-! ## Theorems -/

theorem processQuestions_nil (task : QuestionItem → Except String AnswerResult) :
    processQuestions [] task = [] := rfl

theorem processQuestions_cons (q : QuestionItem) (qs : List QuestionItem)
    (task : QuestionItem → Except String AnswerResult) :
    processQuestions (q :: qs) task =
      gatherConvert q (task q) :: processQuestions qs task := rfl

theorem gatherConvert_questionNumber (q : QuestionItem)
    (r : Except String AnswerResult)
    (h : ∀ a, r = Except.ok a → a.questionNumber = q.questionNumber) :
    (gatherConvert q r).questionNumber = q.questionNumber := by
  cases r with
  | error e => rfl
  | ok a => exact h a rfl

theorem processSingleQuestion_questionNumber (q : QuestionItem)
    (outcome : Except String ValidationResult) (elapsedMs : Nat) :
    (processSingleQuestion q outcome elapsedMs).questionNumber = q.questionNumber := by
  cases outcome <;> rfl

theorem processQuestions_singleTask (questions : List QuestionItem)
    (outcome : QuestionItem → Except String ValidationResult)
    (elapsed : QuestionItem → Nat) :
    processQuestions questions (singleTask outcome elapsed) =
      questions.map fun q => processSingleQuestion q (outcome q) (elapsed q) := by
  induction questions with
  | nil => rfl
  | cons q qs ih => rw [processQuestions_cons, ih]; rfl

theorem processQuestions_shape_aux (questions : List QuestionItem)
    (task : QuestionItem → Except String AnswerResult)
    (htask : ∀ q r, task q = Except.ok r → r.questionNumber = q.questionNumber) :
    (processQuestions questions task).length = questions.length ∧
    ∀ i : Nat, ((processQuestions questions task)[i]?).map AnswerResult.questionNumber =
      (questions[i]?).map QuestionItem.questionNumber := by
  induction questions with
  | nil => exact ⟨rfl, fun i => by simp [processQuestions_nil]⟩
  | cons q qs ih =>
    refine ⟨by simpa [processQuestions_cons] using ih.1, fun i => ?_⟩
    cases i with
    | zero =>
      simp only [processQuestions_cons, List.getElem?_cons_zero, Option.map_some']
      exact congrArg some (gatherConvert_questionNumber q (task q) (fun a ha => htask q a ha))
    | succ n =>
      simpa [processQuestions_cons] using ih.2 n

/-- C1: for every input batch, `process_questions` returns a list of the
same length, in the same order, with the i-th result's `questionNumber`
equal to the i-th question's `questionNumber` — both for any per-question
task whose successful values carry the input question's identifier (which
`_process_single_question` guarantees), and in particular for the real
composition of `_process_single_question` over any validation outcomes. -/
theorem dispatcher_preserves_shape (questions : List QuestionItem)
    (task : QuestionItem → Except String AnswerResult)
    (htask : ∀ q r, task q = Except.ok r → r.questionNumber = q.questionNumber) :
    ((processQuestions questions task).length = questions.length ∧
      ∀ i : Nat, ((processQuestions questions task)[i]?).map AnswerResult.questionNumber =
        (questions[i]?).map QuestionItem.questionNumber) ∧
    ∀ (outcome : QuestionItem → Except String ValidationResult)
      (elapsed : QuestionItem → Nat),
      (processQuestions questions (singleTask outcome elapsed)).length = questions.length ∧
      ∀ i : Nat,
        ((processQuestions questions (singleTask outcome elapsed))[i]?).map
            AnswerResult.questionNumber =
          (questions[i]?).map QuestionItem.questionNumber := by
  refine ⟨processQuestions_shape_aux questions task htask, fun outcome elapsed => ?_⟩
  refine processQuestions_shape_aux questions (singleTask outcome elapsed) ?_
  intro q r hr
  injection hr with h
  subst h
  exact processSingleQuestion_questionNumber q _ _

/-- Concrete check of `dispatcher_preserves_shape` on a two-question batch
(one task failing, one succeeding). -/
theorem dispatcher_preserves_shape_witness :
    (processQuestions
        [⟨"c1", "t1", "option", none, [⟨"o1", false⟩, ⟨"o2", true⟩], "q1"⟩,
         ⟨"c2", "t2", "option", none, [⟨"o1", true⟩, ⟨"o2", false⟩], "q2"⟩]
        (singleTask
          (fun q => if q.questionNumber = "q1" then Except.error "boom"
                    else Except.ok ⟨"A", 1, true⟩)
          (fun _ => 5))).length = 2 ∧
    ∀ i : Nat,
      ((processQuestions
          [⟨"c1", "t1", "option", none, [⟨"o1", false⟩, ⟨"o2", true⟩], "q1"⟩,
           ⟨"c2", "t2", "option", none, [⟨"o1", true⟩, ⟨"o2", false⟩], "q2"⟩]
          (singleTask
            (fun q => if q.questionNumber = "q1" then Except.error "boom"
                      else Except.ok ⟨"A", 1, true⟩)
            (fun _ => 5)))[i]?).map AnswerResult.questionNumber =
        (([⟨"c1", "t1", "option", none, [⟨"o1", false⟩, ⟨"o2", true⟩], "q1"⟩,
           ⟨"c2", "t2", "option", none, [⟨"o1", true⟩, ⟨"o2", false⟩], "q2"⟩] :
            List QuestionItem)[i]?).map QuestionItem.questionNumber := by
  have h := dispatcher_preserves_shape
    [⟨"c1", "t1", "option", none, [⟨"o1", false⟩, ⟨"o2", true⟩], "q1"⟩,
     ⟨"c2", "t2", "option", none, [⟨"o1", true⟩, ⟨"o2", false⟩], "q2"⟩]
    (singleTask
      (fun q => if q.questionNumber = "q1" then Except.error "boom"
                else Except.ok ⟨"A", 1, true⟩)
      (fun _ => 5))
    (by
      intro q r hr
      injection hr with h
      subst h
      exact processSingleQuestion_questionNumber q _ _)
  exact ⟨h.1.1, h.1.2⟩

/-- C2: if the consensus loop raises for the question at index `i`, the
dispatcher converts that failure into an error-shaped result (error message
populated, zero iteration count, no selected answer) at the same index,
still returns a result for every index of the batch, and — being a total
function — never raises because of the failed question. -/
theorem dispatcher_isolates_failures (questions : List QuestionItem)
    (outcome : QuestionItem → Except String ValidationResult)
    (elapsed : QuestionItem → Nat) (i : Nat) (q : QuestionItem) (e : String)
    (hq : questions[i]? = some q) (hfail : outcome q = Except.error e) :
    (processQuestions questions (singleTask outcome elapsed)).length = questions.length ∧
    (processQuestions questions (singleTask outcome elapsed))[i]? =
      some { questionNumber := q.questionNumber, selectedAnswer := none,
             error := some e, validationIterations := 0,
             processingTimeMs := elapsed q } ∧
    ∀ j : Nat, j < questions.length →
      ((processQuestions questions (singleTask outcome elapsed))[j]?).isSome = true := by
  rw [processQuestions_singleTask]
  refine ⟨by simp, ?_, ?_⟩
  · rw [List.getElem?_map, hq]
    simp [processSingleQuestion, hfail]
  · intro j hj
    rw [List.getElem?_map]
    rw [List.getElem?_eq_getElem hj]
    rfl

/-- Concrete check of `dispatcher_isolates_failures`: first question's loop
raises, second succeeds; the batch still yields two results. -/
theorem dispatcher_isolates_failures_witness :
    (processQuestions
        [⟨"c1", "t1", "option", none, [⟨"o1", false⟩, ⟨"o2", true⟩], "q1"⟩,
         ⟨"c2", "t2", "option", none, [⟨"o1", true⟩, ⟨"o2", false⟩], "q2"⟩]
        (singleTask
          (fun q => if q.questionNumber = "q1"
                    then Except.error "RemoteUnavailable"
                    else Except.ok ⟨"B", 2, true⟩)
          (fun _ => 7))).length = 2 ∧
    (processQuestions
        [⟨"c1", "t1", "option", none, [⟨"o1", false⟩, ⟨"o2", true⟩], "q1"⟩,
         ⟨"c2", "t2", "option", none, [⟨"o1", true⟩, ⟨"o2", false⟩], "q2"⟩]
        (singleTask
          (fun q => if q.questionNumber = "q1"
                    then Except.error "RemoteUnavailable"
                    else Except.ok ⟨"B", 2, true⟩)
          (fun _ => 7)))[0]? =
      some { questionNumber := "q1", selectedAnswer := none,
             error := some "RemoteUnavailable", validationIterations := 0,
             processingTimeMs := 7 } ∧
    ∀ j : Nat, j < 2 →
      ((processQuestions
          [⟨"c1", "t1", "option", none, [⟨"o1", false⟩, ⟨"o2", true⟩], "q1"⟩,
           ⟨"c2", "t2", "option", none, [⟨"o1", true⟩, ⟨"o2", false⟩], "q2"⟩]
          (singleTask
            (fun q => if q.questionNumber = "q1"
                      then Except.error "RemoteUnavailable"
                      else Except.ok ⟨"B", 2, true⟩)
            (fun _ => 7)))[j]?).isSome = true := by
  have h := dispatcher_isolates_failures
    [⟨"c1", "t1", "option", none, [⟨"o1", false⟩, ⟨"o2", true⟩], "q1"⟩,
     ⟨"c2", "t2", "option", none, [⟨"o1", true⟩, ⟨"o2", false⟩], "q2"⟩]
    (fun q => if q.questionNumber = "q1"
              then Except.error "RemoteUnavailable"
              else Except.ok ⟨"B", 2, true⟩)
    (fun _ => 7) 0
    ⟨"c1", "t1", "option", none, [⟨"o1", false⟩, ⟨"o2", true⟩], "q1"⟩
    "RemoteUnavailable" rfl rfl
  exact ⟨h.1, h.2.1, fun j hj => h.2.2 j (by simpa using hj)⟩

theorem generateGo_all_fail (cfg : GeminiConfig) (oracle : Nat → ApiOutcome)
    (err : Nat → String)
    (hfail : ∀ k, 1 ≤ k → k ≤ cfg.max_retries →
      attemptResult (oracle k) = Except.error (err k)) :
    ∀ n a lastErr, cfg.max_retries - a = n → 1 ≤ a → a ≤ cfg.max_retries →
      generateGo cfg oracle a lastErr =
        (Except.error (geminiFailureMessage cfg.max_retries (err cfg.max_retries)),
         cfg.max_retries + 1 - a,
         (List.range (cfg.max_retries - a)).map
           fun j => cfg.base_retry_delay_ms * cfg.retry_multiplier ^ (a - 1 + j)) := by
  intro n
  induction n with
  | zero =>
    intro a lastErr hn h1 hM
    have ha : a = cfg.max_retries := by omega
    subst ha
    rw [generateGo, if_pos hM, hfail cfg.max_retries h1 hM]
    have h2 : cfg.max_retries + 1 - cfg.max_retries = 1 := by omega
    simp [h2, Nat.sub_self]
  | succ n ih =>
    intro a lastErr hn h1 hM
    have hlt : a < cfg.max_retries := by omega
    rw [generateGo]
    simp only [if_pos hM, hfail a h1 hM, if_pos hlt]
    rw [ih (a + 1) (err a) (by omega) (by omega) (by omega)]
    have h2 : cfg.max_retries + 1 - (a + 1) + 1 = cfg.max_retries + 1 - a := by omega
    have h3 : cfg.max_retries - a = (cfg.max_retries - (a + 1)) + 1 := by omega
    have h4 : ∀ j : Nat, a + 1 - 1 + j = a - 1 + (j + 1) := by omega
    simp only [h2, h3, List.range_succ_eq_map, List.map_cons, List.map_map]
    refine congrArg _ (congrArg _ ?_)
    refine congrArg₂ _ (by simp) (List.map_congr_left fun j _ => ?_)
    simp only [Function.comp_apply]
    rw [h4 j]

theorem generateGo_first_success (cfg : GeminiConfig) (oracle : Nat → ApiOutcome)
    (s : Nat) (t : String)
    (hok : attemptResult (oracle s) = Except.ok t)
    (hbefore : ∀ k, 1 ≤ k → k < s → ∃ m, attemptResult (oracle k) = Except.error m)
    (hsM : s ≤ cfg.max_retries) :
    ∀ n a lastErr, s - a = n → 1 ≤ a → a ≤ s →
      generateGo cfg oracle a lastErr =
        (Except.ok t, s + 1 - a,
         (List.range (s - a)).map
           fun j => cfg.base_retry_delay_ms * cfg.retry_multiplier ^ (a - 1 + j)) := by
  intro n
  induction n with
  | zero =>
    intro a lastErr hn h1 hs
    have ha : a = s := by omega
    subst ha
    rw [generateGo, if_pos hsM, hok]
    have h2 : a + 1 - a = 1 := by omega
    simp [h2, Nat.sub_self]
  | succ n ih =>
    intro a lastErr hn h1 hs
    have hlt : a < s := by omega
    obtain ⟨m, hm⟩ := hbefore a h1 hlt
    rw [generateGo]
    simp only [if_pos (le_trans hs hsM), hm, if_pos (lt_of_lt_of_le hlt hsM)]
    rw [ih (a + 1) m (by omega) (by omega) (by omega)]
    have h2 : s + 1 - (a + 1) + 1 = s + 1 - a := by omega
    have h3 : s - a = (s - (a + 1)) + 1 := by omega
    have h4 : ∀ j : Nat, a + 1 - 1 + j = a - 1 + (j + 1) := by omega
    simp only [h2, h3, List.range_succ_eq_map, List.map_cons, List.map_map]
    refine congrArg _ (congrArg _ ?_)
    refine congrArg₂ _ (by simp) (List.map_congr_left fun j _ => ?_)
    simp only [Function.comp_apply]
    rw [h4 j]

theorem generateGo_congr (cfg : GeminiConfig) (o1 o2 : Nat → ApiOutcome)
    (h : ∀ k, attemptResult (o1 k) = attemptResult (o2 k)) :
    ∀ n a lastErr, cfg.max_retries + 1 - a = n →
      generateGo cfg o1 a lastErr = generateGo cfg o2 a lastErr := by
  intro n
  induction n with
  | zero =>
    intro a lastErr hn
    have ha : ¬ a ≤ cfg.max_retries := by omega
    rw [generateGo, generateGo, if_neg ha, if_neg ha]
  | succ n ih =>
    intro a lastErr hn
    rw [generateGo, generateGo]
    by_cases hle : a ≤ cfg.max_retries
    · simp only [if_pos hle, h a]
      cases attemptResult (o2 a) with
      | ok t => rfl
      | error m =>
        by_cases hlt : a < cfg.max_retries
        · simp only [if_pos hlt]
          rw [ih (a + 1) m (by omega)]
        · simp only [if_neg hlt]
    · rw [if_neg hle, if_neg hle]

/-- C3: with `M = max_retries ≥ 1`, base delay `D` and multiplier `B`:
(a) when every attempt fails, the client makes exactly `M` attempts, sleeps
`D·B^(k-1)` after the k-th failed attempt for `k < M` and nothing after the
M-th, and raises a failure carrying the last underlying error; (b) when the
first success happens at attempt `s`, its text is returned after exactly `s`
attempts and the delays slept before it, with no further attempt or delay;
(c) an absent or textually empty response is turned into the same per-attempt
failure as a transport exception; (d) the client's behaviour depends on the
underlying call only through that per-attempt outcome. -/
theorem resilient_client_retry_policy (cfg : GeminiConfig)
    (oracle : Nat → ApiOutcome) (hM : 1 ≤ cfg.max_retries) :
    (∀ err : Nat → String,
      (∀ k, 1 ≤ k → k ≤ cfg.max_retries →
        attemptResult (oracle k) = Except.error (err k)) →
      generateResponse cfg oracle =
        (Except.error (geminiFailureMessage cfg.max_retries (err cfg.max_retries)),
         cfg.max_retries,
         (List.range (cfg.max_retries - 1)).map
           fun j => cfg.base_retry_delay_ms * cfg.retry_multiplier ^ j)) ∧
    (∀ s t, 1 ≤ s → s ≤ cfg.max_retries →
      attemptResult (oracle s) = Except.ok t →
      (∀ k, 1 ≤ k → k < s → ∃ m, attemptResult (oracle k) = Except.error m) →
      generateResponse cfg oracle =
        (Except.ok t, s,
         (List.range (s - 1)).map
           fun j => cfg.base_retry_delay_ms * cfg.retry_multiplier ^ j)) ∧
    (attemptResult (ApiOutcome.resp (some "")) =
        Except.error "Empty response from Gemini API" ∧
     attemptResult (ApiOutcome.resp none) =
        Except.error "Empty response from Gemini API" ∧
     ∀ m, attemptResult (ApiOutcome.exn m) = Except.error m) ∧
    (∀ oracle2 : Nat → ApiOutcome,
      (∀ k, attemptResult (oracle k) = attemptResult (oracle2 k)) →
      generateResponse cfg oracle = generateResponse cfg oracle2) := by
  refine ⟨?_, ?_, ⟨rfl, rfl, fun m => rfl⟩, ?_⟩
  · intro err hfail
    have h := generateGo_all_fail cfg oracle err hfail (cfg.max_retries - 1) 1 "None"
      (by omega) (le_refl 1) hM
    simpa using h
  · intro s t hs1 hsM hok hbefore
    have h := generateGo_first_success cfg oracle s t hok hbefore hsM (s - 1) 1 "None"
      (by omega) (le_refl 1) hs1
    simpa using h
  · intro oracle2 h
    exact generateGo_congr cfg oracle oracle2 h (cfg.max_retries + 1 - 1) 1 "None" rfl

/-- Concrete check of `resilient_client_retry_policy`: three attempts, all
failing, with base delay 100 ms and multiplier 2. -/
theorem resilient_client_retry_policy_witness :
    generateResponse ⟨3, 100, 2⟩ (fun k => ApiOutcome.exn ("e" ++ toString k)) =
      (Except.error "Gemini API call failed after 3 attempts: e3", 3, [100, 200]) := by
  have h := (resilient_client_retry_policy ⟨3, 100, 2⟩
      (fun k => ApiOutcome.exn ("e" ++ toString k)) (by decide)).1
      (fun k => "e" ++ toString k) (fun k _ _ => rfl)
  rw [h]
  rfl

theorem answerAt_succ (a : AnswererOracle) (v : ValidatorOracle) (k : Nat) :
    answerAt a v (k + 1) = a (k + 1) (stateBefore a v k).1 (stateBefore a v k).2 := rfl

theorem verdictAt_succ (a : AnswererOracle) (v : ValidatorOracle) (k : Nat) :
    verdictAt a v (k + 1) =
      v (k + 1) (answerAt a v (k + 1)).selected_answer (answerAt a v (k + 1)).reasoning := rfl

theorem stateBefore_succ_fst (a : AnswererOracle) (v : ValidatorOracle) (k : Nat) :
    (stateBefore a v (k + 1)).1 = some (answerAt a v (k + 1)).selected_answer := rfl

theorem stateBefore_succ_snd (a : AnswererOracle) (v : ValidatorOracle) (k : Nat) :
    (stateBefore a v (k + 1)).2 = (verdictAt a v (k + 1)).criticism := rfl

theorem validateGo_step (a : AnswererOracle) (v : ValidatorOracle)
    (maxIterations k : Nat) (prev crit last : Option String)
    (h : k < maxIterations) :
    validateGo a v maxIterations k prev crit last =
      (if (v (k + 1) (a (k + 1) prev crit).selected_answer
            (a (k + 1) prev crit).reasoning).agrees then
        (some ⟨(a (k + 1) prev crit).selected_answer, k + 1, true⟩, 1)
      else
        ((validateGo a v maxIterations (k + 1)
            (some (a (k + 1) prev crit).selected_answer)
            (v (k + 1) (a (k + 1) prev crit).selected_answer
              (a (k + 1) prev crit).reasoning).criticism
            (some (a (k + 1) prev crit).selected_answer)).1,
         (validateGo a v maxIterations (k + 1)
            (some (a (k + 1) prev crit).selected_answer)
            (v (k + 1) (a (k + 1) prev crit).selected_answer
              (a (k + 1) prev crit).reasoning).criticism
            (some (a (k + 1) prev crit).selected_answer)).2 + 1)) := by
  rw [validateGo, dif_pos h]

theorem validateGo_exit (a : AnswererOracle) (v : ValidatorOracle)
    (maxIterations k : Nat) (prev crit last : Option String)
    (h : ¬ k < maxIterations) :
    validateGo a v maxIterations k prev crit last =
      (last.map fun ans => ⟨ans, k, false⟩, 0) := by
  rw [validateGo, dif_neg h]

theorem validateGo_agree (a : AnswererOracle) (v : ValidatorOracle)
    (maxIterations i : Nat) (hi : i ≤ maxIterations)
    (hag : (verdictAt a v i).agrees = true)
    (hbefore : ∀ j, 1 ≤ j → j < i → (verdictAt a v j).agrees = false) :
    ∀ n k last, i - k = n → k < i →
      (validateGo a v maxIterations k
        (stateBefore a v k).1 (stateBefore a v k).2 last).1 =
        some ⟨(answerAt a v i).selected_answer, i, true⟩ := by
  intro n
  induction n with
  | zero => intro k last hn hk; omega
  | succ n ih =>
    intro k last hn hk
    have hkM : k < maxIterations := lt_of_lt_of_le hk hi
    rw [validateGo_step a v maxIterations k _ _ last hkM]
    rw [← answerAt_succ a v k, ← verdictAt_succ a v k]
    rw [← stateBefore_succ_fst a v k, ← stateBefore_succ_snd a v k]
    by_cases hki : k + 1 = i
    · rw [hki, hag]
      simp
    · have hf : (verdictAt a v (k + 1)).agrees = false := hbefore (k + 1) (by omega) (by omega)
      rw [hf]
      simpa using ih (k + 1) (stateBefore a v (k + 1)).1 (by omega) (by omega)

theorem validateGo_forced (a : AnswererOracle) (v : ValidatorOracle)
    (maxIterations : Nat)
    (hall : ∀ j, 1 ≤ j → j ≤ maxIterations → (verdictAt a v j).agrees = false) :
    ∀ n k last, maxIterations - k = n → k < maxIterations →
      (validateGo a v maxIterations k
        (stateBefore a v k).1 (stateBefore a v k).2 last).1 =
        some ⟨(answerAt a v maxIterations).selected_answer, maxIterations, false⟩ := by
  intro n
  induction n with
  | zero => intro k last hn hk; omega
  | succ n ih =>
    intro k last hn hk
    rw [validateGo_step a v maxIterations k _ _ last hk]
    rw [← answerAt_succ a v k, ← verdictAt_succ a v k]
    rw [← stateBefore_succ_fst a v k, ← stateBefore_succ_snd a v k]
    have hf : (verdictAt a v (k + 1)).agrees = false := hall (k + 1) (by omega) (by omega)
    rw [hf]
    by_cases hki : k + 1 = maxIterations
    · rw [validateGo_exit a v maxIterations (k + 1) _ _ _ (by omega)]
      rw [stateBefore_succ_fst a v k]
      simp [hki]
    · simpa using ih (k + 1) (stateBefore a v (k + 1)).1 (by omega) (by omega)

/-- C4: with a configured bound ≥ 1, if the critic agrees on iteration `i`
(and disagreed on every earlier iteration), the loop returns consensus with
`iterations = i` and the selection proposed on iteration `i`; if the critic
disagrees on every iteration up to the bound, the loop returns no consensus
with `iterations` equal to the bound and the selection proposed on the final
iteration. -/
theorem consensus_loop_verdicts (maxIterations : Nat) (a : AnswererOracle)
    (v : ValidatorOracle) (hM : 1 ≤ maxIterations) :
    (∀ i, 1 ≤ i → i ≤ maxIterations → (verdictAt a v i).agrees = true →
      (∀ j, 1 ≤ j → j < i → (verdictAt a v j).agrees = false) →
      (validateQuestion maxIterations a v).1 =
        some ⟨(answerAt a v i).selected_answer, i, true⟩) ∧
    ((∀ j, 1 ≤ j → j ≤ maxIterations → (verdictAt a v j).agrees = false) →
      (validateQuestion maxIterations a v).1 =
        some ⟨(answerAt a v maxIterations).selected_answer, maxIterations, false⟩) := by
  constructor
  · intro i h1 hiM hag hbefore
    exact validateGo_agree a v maxIterations i hiM hag hbefore i 0 none rfl (by omega)
  · intro hall
    exact validateGo_forced a v maxIterations hall maxIterations 0 none rfl (by omega)

/-- Concrete check of `consensus_loop_verdicts`: bound 3, critic disagrees on
iteration 1 and agrees on iteration 2. -/
theorem consensus_loop_verdicts_witness :
    (validateQuestion 3 (fun k _ _ => ⟨"ans" ++ toString k, "r"⟩)
        (fun k _ _ => ⟨if k = 2 then "AGREE" else "DISAGREE", some "crit"⟩)).1 =
      some ⟨"ans2", 2, true⟩ := by
  have h := (consensus_loop_verdicts 3
      (fun k _ _ => ⟨"ans" ++ toString k, "r"⟩)
      (fun k _ _ => ⟨if k = 2 then "AGREE" else "DISAGREE", some "crit"⟩)
      (by decide)).1 2 (by decide) (by decide) rfl
      (by
        intro j hj1 hj2
        have hj : j = 1 := by omega
        subst hj
        rfl)
  exact h.trans rfl

theorem validateGo_total (a : AnswererOracle) (v : ValidatorOracle)
    (maxIterations : Nat) :
    ∀ n k prev crit last, maxIterations - k = n → k < maxIterations →
      ∃ r : ValidationResult,
        validateGo a v maxIterations k prev crit last = (some r, r.iterations - k) ∧
        k < r.iterations ∧ r.iterations ≤ maxIterations := by
  intro n
  induction n with
  | zero => intro k prev crit last hn hk; omega
  | succ n ih =>
    intro k prev crit last hn hk
    rw [validateGo_step a v maxIterations k prev crit last hk]
    by_cases hv : (v (k + 1) (a (k + 1) prev crit).selected_answer
        (a (k + 1) prev crit).reasoning).agrees
    · refine ⟨⟨(a (k + 1) prev crit).selected_answer, k + 1, true⟩, ?_,
        by show k < k + 1; omega, by show k + 1 ≤ maxIterations; omega⟩
      rw [hv]
      have h1 : k + 1 - k = 1 := by omega
      simp [h1]
    · rw [Bool.not_eq_true] at hv
      rw [hv]
      by_cases hk1 : k + 1 < maxIterations
      · obtain ⟨r, hr, hb1, hb2⟩ := ih (k + 1) (some (a (k + 1) prev crit).selected_answer)
          (v (k + 1) (a (k + 1) prev crit).selected_answer
            (a (k + 1) prev crit).reasoning).criticism
          (some (a (k + 1) prev crit).selected_answer) (by omega) hk1
        refine ⟨r, ?_, by omega, hb2⟩
        rw [hr]
        have h1 : r.iterations - (k + 1) + 1 = r.iterations - k := by omega
        simp [h1]
      · refine ⟨⟨(a (k + 1) prev crit).selected_answer, k + 1, false⟩, ?_,
          by show k < k + 1; omega, by show k + 1 ≤ maxIterations; omega⟩
        rw [validateGo_exit a v maxIterations (k + 1) _ _ _ hk1]
        have h1 : k + 1 - k = 1 := by omega
        simp [h1]

/-- C5: with a configured bound ≥ 1 and any oracle replies, the loop
terminates with a result (never the unbound-variable escape), performs a
number of proposer/critic round-trips equal to the reported iteration count,
and that count is at least 1 and at most the bound. -/
theorem consensus_loop_bounds (maxIterations : Nat) (a : AnswererOracle)
    (v : ValidatorOracle) (hM : 1 ≤ maxIterations) :
    ∃ r : ValidationResult,
      (validateQuestion maxIterations a v).1 = some r ∧
      (validateQuestion maxIterations a v).2 = r.iterations ∧
      1 ≤ r.iterations ∧ r.iterations ≤ maxIterations := by
  obtain ⟨r, hr, hb1, hb2⟩ :=
    validateGo_total a v maxIterations maxIterations 0 none none none rfl (by omega)
  refine ⟨r, ?_, ?_, by omega, hb2⟩
  · show (validateGo a v maxIterations 0 none none none).1 = some r
    rw [hr]
  · show (validateGo a v maxIterations 0 none none none).2 = r.iterations
    rw [hr]
    simp

/-- Concrete check of `consensus_loop_bounds`: bound 2 with an
always-disagreeing critic. -/
theorem consensus_loop_bounds_witness :
    ∃ r : ValidationResult,
      (validateQuestion 2 (fun _ _ _ => ⟨"x", "y"⟩)
          (fun _ _ _ => ⟨"DISAGREE", none⟩)).1 = some r ∧
      (validateQuestion 2 (fun _ _ _ => ⟨"x", "y"⟩)
          (fun _ _ _ => ⟨"DISAGREE", none⟩)).2 = r.iterations ∧
      1 ≤ r.iterations ∧ r.iterations ≤ 2 :=
  consensus_loop_bounds 2 (fun _ _ _ => ⟨"x", "y"⟩)
    (fun _ _ _ => ⟨"DISAGREE", none⟩) (by decide)

theorem pyStartsWithChars_head_ne (l : List Char) (p q : Char)
    (ps qs : List Char) (hne : p ≠ q) :
    pyStartsWithChars l (p :: ps) = true → pyStartsWithChars l (q :: qs) = false := by
  cases l with
  | nil => intro h; exact absurd h (by simp [pyStartsWithChars])
  | cons c cs =>
    intro h
    simp only [pyStartsWithChars, Bool.and_eq_true, beq_iff_eq] at h
    simp only [pyStartsWithChars, Bool.and_eq_false_iff]
    left
    simp [h.1, hne]

theorem selected_not_reasoning (l : String) :
    pyStartsWith l "SELECTED:" = true → pyStartsWith l "REASONING:" = false :=
  fun h => pyStartsWithChars_head_ne l.data 'S' 'R' _ _ (by decide) h

theorem verdict_not_criticism (l : String) :
    pyStartsWith l "VERDICT:" = true → pyStartsWith l "CRITICISM:" = false :=
  fun h => pyStartsWithChars_head_ne l.data 'V' 'C' _ _ (by decide) h

/-- The selection component of the answerer scan evolves independently, by
the `lastLabelValue` step for the `SELECTED:` label. -/
theorem answererScan_fst (lines : List String) :
    ∀ acc : Option String × Option String,
    (lines.foldl answererScanStep acc).1 =
      lines.foldl
        (fun a l =>
          let line := pyStrip l
          if pyStartsWith line "SELECTED:" then
            some (pyStrip (pyDrop line ("SELECTED:".length)))
          else a)
        acc.1 := by
  induction lines with
  | nil => intro acc; rfl
  | cons l ls ih =>
    intro acc
    rw [List.foldl_cons, List.foldl_cons, ih]
    congr 1
    simp only [answererScanStep]
    by_cases h1 : pyStartsWith (pyStrip l) "SELECTED:"
    · simp [h1]
    · simp only [Bool.not_eq_true] at h1
      simp only [h1]
      by_cases h2 : pyStartsWith (pyStrip l) "REASONING:" <;> simp [h2]

/-- The reasoning component of the answerer scan evolves independently, by
the `lastLabelValue` step for the `REASONING:` label (a line cannot carry
both labels, their first characters differ). -/
theorem answererScan_snd (lines : List String) :
    ∀ acc : Option String × Option String,
    (lines.foldl answererScanStep acc).2 =
      lines.foldl
        (fun a l =>
          let line := pyStrip l
          if pyStartsWith line "REASONING:" then
            some (pyStrip (pyDrop line ("REASONING:".length)))
          else a)
        acc.2 := by
  induction lines with
  | nil => intro acc; rfl
  | cons l ls ih =>
    intro acc
    rw [List.foldl_cons, List.foldl_cons, ih]
    congr 1
    simp only [answererScanStep]
    by_cases h1 : pyStartsWith (pyStrip l) "SELECTED:"
    · simp [h1, selected_not_reasoning (pyStrip l) h1]
    · simp only [Bool.not_eq_true] at h1
      simp only [h1]
      by_cases h2 : pyStartsWith (pyStrip l) "REASONING:" <;> simp [h2]

/-- The verdict component of the validator scan evolves independently, by
the `lastVerdictValue` step. -/
theorem validatorScan_fst (lines : List String) :
    ∀ acc : Option String × Option String,
    (lines.foldl validatorScanStep acc).1 =
      lines.foldl
        (fun a l =>
          let line := pyStrip l
          if pyStartsWith line "VERDICT:" then
            let v := pyUpper (pyStrip (pyDrop line ("VERDICT:".length)))
            if v = "AGREE" ∨ v = "DISAGREE" then some v else a
          else a)
        acc.1 := by
  induction lines with
  | nil => intro acc; rfl
  | cons l ls ih =>
    intro acc
    rw [List.foldl_cons, List.foldl_cons, ih]
    congr 1
    simp only [validatorScanStep]
    by_cases h1 : pyStartsWith (pyStrip l) "VERDICT:"
    · simp only [h1, if_true]
      by_cases h2 : pyUpper (pyStrip (pyDrop (pyStrip l) ("VERDICT:".length))) = "AGREE" ∨
          pyUpper (pyStrip (pyDrop (pyStrip l) ("VERDICT:".length))) = "DISAGREE"
      · simp [h2]
      · simp [h2]
    · simp only [Bool.not_eq_true] at h1
      simp only [h1]
      by_cases h2 : pyStartsWith (pyStrip l) "CRITICISM:" <;> simp [h2]

/-- The criticism component of the validator scan evolves independently, by
the `lastLabelValue` step for the `CRITICISM:` label. -/
theorem validatorScan_snd (lines : List String) :
    ∀ acc : Option String × Option String,
    (lines.foldl validatorScanStep acc).2 =
      lines.foldl
        (fun a l =>
          let line := pyStrip l
          if pyStartsWith line "CRITICISM:" then
            some (pyStrip (pyDrop line ("CRITICISM:".length)))
          else a)
        acc.2 := by
  induction lines with
  | nil => intro acc; rfl
  | cons l ls ih =>
    intro acc
    rw [List.foldl_cons, List.foldl_cons, ih]
    congr 1
    simp only [validatorScanStep]
    by_cases h1 : pyStartsWith (pyStrip l) "VERDICT:"
    · simp only [h1, if_true, verdict_not_criticism (pyStrip l) h1]
      by_cases h2 : pyUpper (pyStrip (pyDrop (pyStrip l) ("VERDICT:".length))) = "AGREE" ∨
          pyUpper (pyStrip (pyDrop (pyStrip l) ("VERDICT:".length))) = "DISAGREE"
      · simp [h2]
      · simp [h2]
    · simp only [Bool.not_eq_true] at h1
      simp only [h1]
      by_cases h2 : pyStartsWith (pyStrip l) "CRITICISM:" <;> simp [h2]

theorem answererScan_fst_lastLabel (lines : List String) :
    (lines.foldl answererScanStep (none, none)).1 =
      lastLabelValue "SELECTED:" lines := by
  rw [answererScan_fst]; rfl

theorem answererScan_snd_lastLabel (lines : List String) :
    (lines.foldl answererScanStep (none, none)).2 =
      lastLabelValue "REASONING:" lines := by
  rw [answererScan_snd]; rfl

theorem validatorScan_fst_lastVerdict (lines : List String) :
    (lines.foldl validatorScanStep (none, none)).1 = lastVerdictValue lines := by
  rw [validatorScan_fst]; rfl

theorem validatorScan_snd_lastLabel (lines : List String) :
    (lines.foldl validatorScanStep (none, none)).2 =
      lastLabelValue "CRITICISM:" lines := by
  rw [validatorScan_snd]; rfl

/-- In a fold whose step overwrites on a matching line and keeps the
accumulator otherwise, the value after the fold is the one of the last
matching line, whatever came before it. -/
theorem foldl_last_match {α : Type} (P : String → Bool) (val : String → α)
    (g : α → String → α)
    (hmatch : ∀ a l, P l = true → g a l = val l)
    (hkeep : ∀ a l, P l = false → g a l = a)
    (pre suf : List String) (l : String) (hl : P l = true)
    (hsuf : ∀ l2 ∈ suf, P l2 = false) (init : α) :
    (pre ++ l :: suf).foldl g init = val l := by
  have aux : ∀ s : List String, (∀ l2 ∈ s, P l2 = false) → ∀ a, s.foldl g a = a := by
    intro s
    induction s with
    | nil => intro _ a; rfl
    | cons x xs ih =>
      intro hs a
      rw [List.foldl_cons, hkeep a x (hs x (by simp))]
      exact ih (fun l2 hm => hs l2 (by simp [hm])) a
  rw [List.foldl_append, List.foldl_cons, hmatch _ l hl]
  exact aux suf hsuf (val l)

/-- C6 amended: when a recognised label occurs on several lines, the value
retained by each parser's scan is the one of the LAST occurrence (for the
critic's verdict, the last occurrence whose value normalises to AGREE or
DISAGREE); earlier occurrences are overwritten, later unrecognised lines are
ignored. -/
theorem parser_takes_last_occurrence :
    (∀ (pre suf : List String) (l : String) (init : Option String × Option String),
      pyStartsWith (pyStrip l) "SELECTED:" = true →
      (∀ l2 ∈ suf, pyStartsWith (pyStrip l2) "SELECTED:" = false) →
      ((pre ++ l :: suf).foldl answererScanStep init).1 =
        some (pyStrip (pyDrop (pyStrip l) ("SELECTED:".length)))) ∧
    (∀ (pre suf : List String) (l : String) (init : Option String × Option String),
      pyStartsWith (pyStrip l) "REASONING:" = true →
      (∀ l2 ∈ suf, pyStartsWith (pyStrip l2) "REASONING:" = false) →
      ((pre ++ l :: suf).foldl answererScanStep init).2 =
        some (pyStrip (pyDrop (pyStrip l) ("REASONING:".length)))) ∧
    (∀ (pre suf : List String) (l : String) (init : Option String × Option String),
      pyStartsWith (pyStrip l) "VERDICT:" = true →
      (pyUpper (pyStrip (pyDrop (pyStrip l) ("VERDICT:".length))) = "AGREE" ∨
       pyUpper (pyStrip (pyDrop (pyStrip l) ("VERDICT:".length))) = "DISAGREE") →
      (∀ l2 ∈ suf, pyStartsWith (pyStrip l2) "VERDICT:" = false ∨
        (pyUpper (pyStrip (pyDrop (pyStrip l2) ("VERDICT:".length))) ≠ "AGREE" ∧
         pyUpper (pyStrip (pyDrop (pyStrip l2) ("VERDICT:".length))) ≠ "DISAGREE")) →
      ((pre ++ l :: suf).foldl validatorScanStep init).1 =
        some (pyUpper (pyStrip (pyDrop (pyStrip l) ("VERDICT:".length))))) ∧
    (∀ (pre suf : List String) (l : String) (init : Option String × Option String),
      pyStartsWith (pyStrip l) "CRITICISM:" = true →
      (∀ l2 ∈ suf, pyStartsWith (pyStrip l2) "CRITICISM:" = false) →
      ((pre ++ l :: suf).foldl validatorScanStep init).2 =
        some (pyStrip (pyDrop (pyStrip l) ("CRITICISM:".length)))) := by
  refine ⟨?_, ?_, ?_, ?_⟩
  · intro pre suf l init hl hsuf
    rw [answererScan_fst]
    exact foldl_last_match (fun l2 => pyStartsWith (pyStrip l2) "SELECTED:")
      (fun l2 => some (pyStrip (pyDrop (pyStrip l2) ("SELECTED:".length)))) _
      (fun a l2 h => by simp [h]) (fun a l2 h => by simp [h]) pre suf l hl hsuf init.1
  · intro pre suf l init hl hsuf
    rw [answererScan_snd]
    exact foldl_last_match (fun l2 => pyStartsWith (pyStrip l2) "REASONING:")
      (fun l2 => some (pyStrip (pyDrop (pyStrip l2) ("REASONING:".length)))) _
      (fun a l2 h => by simp [h]) (fun a l2 h => by simp [h]) pre suf l hl hsuf init.2
  · intro pre suf l init hl hval hsuf
    rw [validatorScan_fst]
    refine foldl_last_match
      (fun l2 => pyStartsWith (pyStrip l2) "VERDICT:" &&
        (pyUpper (pyStrip (pyDrop (pyStrip l2) ("VERDICT:".length))) == "AGREE" ||
         pyUpper (pyStrip (pyDrop (pyStrip l2) ("VERDICT:".length))) == "DISAGREE"))
      (fun l2 => some (pyUpper (pyStrip (pyDrop (pyStrip l2) ("VERDICT:".length))))) _
      ?_ ?_ pre suf l ?_ ?_ init.1
    · intro a l2 h
      simp only [Bool.and_eq_true, Bool.or_eq_true, beq_iff_eq] at h
      simp [h.1, h.2]
    · intro a l2 h
      simp only [Bool.and_eq_false_iff, Bool.or_eq_false_iff, beq_eq_false_iff_ne] at h
      rcases h with h | ⟨h1, h2⟩
      · simp [h]
      · by_cases hs : pyStartsWith (pyStrip l2) "VERDICT:" <;> simp [hs, h1, h2]
    · simp only [Bool.and_eq_true, Bool.or_eq_true, beq_iff_eq]
      exact ⟨hl, hval⟩
    · intro l2 hm
      rcases hsuf l2 hm with h | ⟨h1, h2⟩
      · simp [h]
      · by_cases hs : pyStartsWith (pyStrip l2) "VERDICT:" <;> simp [hs, h1, h2]
  · intro pre suf l init hl hsuf
    rw [validatorScan_snd]
    exact foldl_last_match (fun l2 => pyStartsWith (pyStrip l2) "CRITICISM:")
      (fun l2 => some (pyStrip (pyDrop (pyStrip l2) ("CRITICISM:".length)))) _
      (fun a l2 h => by simp [h]) (fun a l2 h => by simp [h]) pre suf l hl hsuf init.2

/-- Concrete check of `parser_takes_last_occurrence`: two `SELECTED:` lines,
the scan retains the second. -/
theorem parser_takes_last_occurrence_witness :
    ((["SELECTED: A"] ++ "SELECTED: B" :: ["REASONING: fine"]).foldl
        answererScanStep (none, none)).1 = some "B" := by
  have h := parser_takes_last_occurrence.1 ["SELECTED: A"] ["REASONING: fine"]
    "SELECTED: B" (none, none) rfl
    (by
      intro l2 hm
      have : l2 = "REASONING: fine" := by simpa using hm
      subst this
      rfl)
  exact h.trans rfl

/-- C6 counterexample: with a repeated label the parsers return the value of
the LAST occurrence, not the first one the claim states. -/
theorem parser_first_occurrence_counterexample :
    answererParseResponse "SELECTED: A\nSELECTED: B\nREASONING: fine" =
      Except.ok ⟨"B", "fine"⟩ ∧
    validatorParseResponse "VERDICT: AGREE\nVERDICT: disagree" =
      Except.ok ⟨"DISAGREE", none⟩ ∧
    ("B" : String) ≠ "A" ∧ ("DISAGREE" : String) ≠ "AGREE" :=
  ⟨rfl, rfl, by decide, by decide⟩

theorem isFalsy_false_some (o : Option String) (h : isFalsy o = false) :
    some (o.getD "") = o := by
  cases o with
  | none => simp [isFalsy] at h
  | some s => rfl

/-- C7 counterexample: a response carrying both labels, but with an empty
value after `SELECTED:`, still fails — presence of the labels alone does not
make the parse succeed. -/
theorem proposer_parse_labels_counterexample :
    answererParseResponse "SELECTED:\nREASONING: ok" =
      Except.error "Could not extract SELECTED from response" ∧
    ((pySplitLines (pyStrip "SELECTED:\nREASONING: ok")).any
      fun l => pyStartsWith (pyStrip l) "SELECTED:") = true ∧
    ((pySplitLines (pyStrip "SELECTED:\nREASONING: ok")).any
      fun l => pyStartsWith (pyStrip l) "REASONING:") = true :=
  ⟨rfl, rfl, rfl⟩

/-- C7 amended: the proposer's parse succeeds exactly when both the
selection and the rationale label are located with a non-empty retained
(last-occurrence) value; the parsed fields are those retained values, and
lines carrying neither label never affect the scan. -/
theorem proposer_parse_malformed_amended (t : String) :
    ((∃ r, answererParseResponse t = Except.ok r) ↔
      (isFalsy (lastLabelValue "SELECTED:" (pySplitLines (pyStrip t))) = false ∧
       isFalsy (lastLabelValue "REASONING:" (pySplitLines (pyStrip t))) = false)) ∧
    (∀ r, answererParseResponse t = Except.ok r →
      some r.selected_answer = lastLabelValue "SELECTED:" (pySplitLines (pyStrip t)) ∧
      some r.reasoning = lastLabelValue "REASONING:" (pySplitLines (pyStrip t))) ∧
    (∀ (acc : Option String × Option String) (l : String),
      pyStartsWith (pyStrip l) "SELECTED:" = false →
      pyStartsWith (pyStrip l) "REASONING:" = false →
      answererScanStep acc l = acc) := by
  have hsel := answererScan_fst_lastLabel (pySplitLines (pyStrip t))
  have hreas := answererScan_snd_lastLabel (pySplitLines (pyStrip t))
  refine ⟨?_, ?_, ?_⟩
  · rw [← hsel, ← hreas]
    simp only [answererParseResponse]
    by_cases h1 : isFalsy ((pySplitLines (pyStrip t)).foldl answererScanStep (none, none)).1 <;>
      by_cases h2 : isFalsy ((pySplitLines (pyStrip t)).foldl answererScanStep (none, none)).2 <;>
      simp [h1, h2]
  · intro r hr
    rw [← hsel, ← hreas]
    simp only [answererParseResponse] at hr
    by_cases h1 : isFalsy ((pySplitLines (pyStrip t)).foldl answererScanStep (none, none)).1
    · simp [h1] at hr
    · rw [Bool.not_eq_true] at h1
      by_cases h2 : isFalsy ((pySplitLines (pyStrip t)).foldl answererScanStep (none, none)).2
      · simp [h1, h2] at hr
      · rw [Bool.not_eq_true] at h2
        simp only [h1, h2, Bool.false_eq_true, if_false, Except.ok.injEq] at hr
        subst hr
        exact ⟨isFalsy_false_some _ h1, isFalsy_false_some _ h2⟩
  · intro acc l h1 h2
    simp [answererScanStep, h1, h2]

/-- Concrete check of `proposer_parse_malformed_amended`: a successful parse
around an unrecognised line takes both values from their labelled lines. -/
theorem proposer_parse_malformed_amended_witness :
    some "A" =
      lastLabelValue "SELECTED:" (pySplitLines (pyStrip "SELECTED: A\nnoise\nREASONING: r")) ∧
    some "r" =
      lastLabelValue "REASONING:" (pySplitLines (pyStrip "SELECTED: A\nnoise\nREASONING: r")) :=
  (proposer_parse_malformed_amended "SELECTED: A\nnoise\nREASONING: r").2.1 ⟨"A", "r"⟩ rfl

theorem verdictFold_mem (lines : List String) :
    ∀ init : Option String,
      init = none ∨ init = some "AGREE" ∨ init = some "DISAGREE" →
      ((lines.foldl
          (fun acc l =>
            let line := pyStrip l
            if pyStartsWith line "VERDICT:" then
              let v := pyUpper (pyStrip (pyDrop line ("VERDICT:".length)))
              if v = "AGREE" ∨ v = "DISAGREE" then some v else acc
            else acc) init) = none ∨
       (lines.foldl
          (fun acc l =>
            let line := pyStrip l
            if pyStartsWith line "VERDICT:" then
              let v := pyUpper (pyStrip (pyDrop line ("VERDICT:".length)))
              if v = "AGREE" ∨ v = "DISAGREE" then some v else acc
            else acc) init) = some "AGREE" ∨
       (lines.foldl
          (fun acc l =>
            let line := pyStrip l
            if pyStartsWith line "VERDICT:" then
              let v := pyUpper (pyStrip (pyDrop line ("VERDICT:".length)))
              if v = "AGREE" ∨ v = "DISAGREE" then some v else acc
            else acc) init) = some "DISAGREE") := by
  induction lines with
  | nil => intro init h; exact h
  | cons l ls ih =>
    intro init h
    simp only [List.foldl_cons]
    apply ih
    by_cases h1 : pyStartsWith (pyStrip l) "VERDICT:"
    · by_cases h2 : pyUpper (pyStrip (pyDrop (pyStrip l) ("VERDICT:".length))) = "AGREE" ∨
          pyUpper (pyStrip (pyDrop (pyStrip l) ("VERDICT:".length))) = "DISAGREE"
      · rcases h2 with h2 | h2 <;> simp [h1, h2]
      · simpa [h1, h2] using h
    · simpa [h1] using h

/-- C8: the critic's parse returns a verdict only when some `VERDICT:` line
normalises case-insensitively to exactly AGREE or DISAGREE — any other
verdict value leaves the scan unchanged, exactly as if the label were not
found; it fails precisely when no valid verdict line exists; and a DISAGREE
with no criticism line parses successfully with an absent criticism. -/
theorem critic_parse_verdict_policy (t : String) :
    (∀ r, validatorParseResponse t = Except.ok r →
      r.verdict = "AGREE" ∨ r.verdict = "DISAGREE") ∧
    (validatorParseResponse t = Except.error "Could not extract VERDICT from response" ↔
      lastVerdictValue (pySplitLines (pyStrip t)) = none) ∧
    (∀ (acc : Option String × Option String) (l : String),
      pyStartsWith (pyStrip l) "VERDICT:" = true →
      pyUpper (pyStrip (pyDrop (pyStrip l) ("VERDICT:".length))) ≠ "AGREE" →
      pyUpper (pyStrip (pyDrop (pyStrip l) ("VERDICT:".length))) ≠ "DISAGREE" →
      validatorScanStep acc l = acc) ∧
    (lastVerdictValue (pySplitLines (pyStrip t)) = some "DISAGREE" →
      lastLabelValue "CRITICISM:" (pySplitLines (pyStrip t)) = none →
      validatorParseResponse t = Except.ok ⟨"DISAGREE", none⟩) := by
  have hv := validatorScan_fst_lastVerdict (pySplitLines (pyStrip t))
  have hc := validatorScan_snd_lastLabel (pySplitLines (pyStrip t))
  have hmem : lastVerdictValue (pySplitLines (pyStrip t)) = none ∨
      lastVerdictValue (pySplitLines (pyStrip t)) = some "AGREE" ∨
      lastVerdictValue (pySplitLines (pyStrip t)) = some "DISAGREE" :=
    verdictFold_mem (pySplitLines (pyStrip t)) none (Or.inl rfl)
  refine ⟨?_, ?_, ?_, ?_⟩
  · intro r hr
    simp only [validatorParseResponse, hv] at hr
    rcases hmem with hm | hm | hm <;> simp only [hm] at hr
    · simp [isFalsy] at hr
    · rw [if_neg (by decide : ¬ (isFalsy (some "AGREE") = true))] at hr
      simp only [Except.ok.injEq] at hr
      subst hr
      left; rfl
    · rw [if_neg (by decide : ¬ (isFalsy (some "DISAGREE") = true))] at hr
      simp only [Except.ok.injEq] at hr
      subst hr
      right; rfl
  · simp only [validatorParseResponse, hv]
    rcases hmem with hm | hm | hm <;> simp [hm, isFalsy]
  · intro acc l h1 h2 h3
    simp [validatorScanStep, h1, h2, h3]
  · intro hd hcrit
    simp [validatorParseResponse, hv, hc, hd, hcrit, isFalsy]

/-- Concrete check of `critic_parse_verdict_policy`: a lower-case
`disagree` with no criticism parses to DISAGREE with absent criticism. -/
theorem critic_parse_verdict_policy_witness :
    validatorParseResponse "VERDICT: disagree" = Except.ok ⟨"DISAGREE", none⟩ :=
  (critic_parse_verdict_policy "VERDICT: disagree").2.2.2 rfl rfl

/-- C9 (code bug): `AnswererAgent._build_prompt` reads `question.answer`,
an attribute `QuestionItem` does not define (`src/models/schemas.py` declares
`answers`), so for every question and every reconsideration state the
builder raises `AttributeError` instead of producing a prompt embedding the
question body, title and lettered options. -/
theorem proposer_prompt_attribute_error (q : QuestionItem)
    (previous_answer criticism : Option String) :
    answererBuildPrompt q previous_answer criticism =
      Except.error "AttributeError: QuestionItem object has no attribute answer" := rfl

end QaAi
